import Mathlib

/-
  Shallow embedding of the authorization-aware data-access core of the
  openleadr-rs VTN excerpt: the identity/role model, the resource
  write-permission check, the five resource handlers, the report delete
  handler, and the validated filter/pagination structures of the
  resource, report and program list endpoints.
-/

namespace OpenLEADR

/-- Modelled from the spec: the AuthRole variants of the jwt module are not
in the excerpt; section 3 of the spec gives the closed role set
BusinessUser (retailer staff), VenManager (a business role with elevated
VEN administration rights) and VenUser scoped to exactly one VEN id.
The handler tests name these AnyBusiness, VenManager and VEN. -/
inductive AuthRole where
  | AnyBusiness
  | VenManager
  | VEN (venId : String)
deriving DecidableEq, Repr

/-- Modelled from the spec: a parsed, already-verified credential carrying
one or more roles (section 3: a single credential may carry multiple roles
simultaneously). -/
structure Claims where
  roles : List AuthRole
deriving DecidableEq, Repr

/-- Modelled from the spec: evaluation is allow-if-ANY-held-role-authorizes,
so the accessor is true when some held role is VenManager. -/
def Claims.is_ven_manager (c : Claims) : Bool :=
  c.roles.contains AuthRole.VenManager

/-- Modelled from the spec: true when some held role is a VEN role. -/
def Claims.is_ven (c : Claims) : Bool :=
  c.roles.any fun r =>
    match r with
    | AuthRole.VEN _ => true
    | _ => false

/-- Modelled from the spec: the set of Ven ids the VEN roles of the
identity authorize; empty for non-VEN roles (section 4.1). -/
def Claims.ven_ids (c : Claims) : List String :=
  c.roles.filterMap fun r =>
    match r with
    | AuthRole.VEN v => some v
    | _ => none

/-- Modelled from the spec: true when some held role is a business role;
section 3 lists BusinessUser as the retailer-side role and section 3 and
4.2 describe VenManager as a business role with elevated rights. -/
def Claims.is_business (c : Claims) : Bool :=
  c.roles.any fun r =>
    match r with
    | AuthRole.AnyBusiness => true
    | AuthRole.VenManager => true
    | _ => false

/-- The error kinds the handlers surface (error module, mirrored from the
variants used in the excerpt: Forbidden with a static message, NotFound,
and validation failures which map to 400 responses). -/
inductive AppError where
  | NotFound
  | Forbidden (msg : String)
  | Validation (msg : String)
deriving DecidableEq, Repr

instance {ε α : Type} [DecidableEq ε] [DecidableEq α] : DecidableEq (Except ε α)
  | Except.error a, Except.error b =>
    if h : a = b then .isTrue (by rw [h]) else .isFalse (by intro hc; injection hc; contradiction)
  | Except.error _, Except.ok _ => .isFalse (by intro hc; exact Except.noConfusion hc)
  | Except.ok _, Except.error _ => .isFalse (by intro hc; exact Except.noConfusion hc)
  | Except.ok a, Except.ok b =>
    if h : a = b then .isTrue (by rw [h]) else .isFalse (by intro hc; injection hc; contradiction)

/-- The resource write-permission check of api/resource.rs: allow a VEN
manager; allow a VEN user whose held ven ids contain the target ven id;
deny everything else with Forbidden. -/
def has_write_permission (user : Claims) (ven_id : String) : Except AppError Unit :=
  if user.is_ven_manager then
    Except.ok ()
  else if user.is_ven && user.ven_ids.contains ven_id then
    Except.ok ()
  else
    Except.error (AppError.Forbidden "User not authorized to access this resource")

/-- The write-permission rule as the spec words it (section 4.2 and
section 8): allowed iff the identity is a VEN manager, or it holds a VEN
role and the target ven id is among its held ven ids. Stated separately
from has_write_permission so the two can be compared. -/
def write_allowed_spec (user : Claims) (ven_id : String) : Bool :=
  user.is_ven_manager || (user.is_ven && user.ven_ids.contains ven_id)

/-- The content payload of a ven resource (wire resource module, outside
the excerpt); only the resource name takes part in the behaviour the
excerpt exercises, the remaining fields are opaque payload. -/
structure ResourceContent where
  resource_name : String
deriving DecidableEq, Repr

/-- A ven resource: a server-assigned id, the immutable owning ven id, and
the content payload (spec section 3). -/
structure Resource where
  id : String
  ven_id : String
  content : ResourceContent
deriving DecidableEq, Repr

/-- The backing store of the ResourceCrud backend, as an insertion-ordered
sequence of resources. -/
abbrev Store := List Resource

/-- Modelled from the spec: the ResourceCrud retrieve of the storage
backend is not in the excerpt; per section 4.3 and the handler tests, it
looks the id up scoped to the ven id taken from the path and reports
NotFound when no such resource exists under that ven. -/
def Store.retrieve (s : Store) (id : String) (ven_id : String) : Except AppError Resource :=
  match s.find? (fun r => r.id == id && r.ven_id == ven_id) with
  | some r => Except.ok r
  | none => Except.error AppError.NotFound

/-- Modelled from the spec: ResourceCrud create assigns a fresh
server-side id and persists the content under the given ven
(section 4.3). -/
def Store.create (s : Store) (content : ResourceContent) (ven_id : String) : Resource :=
  ⟨String.append "resource-" (toString s.length), ven_id, content⟩

/-- Modelled from the spec: ResourceCrud update replaces the content
wholesale, failing NotFound when the id is absent under the ven
(section 4.3). -/
def Store.update (s : Store) (id : String) (ven_id : String) (content : ResourceContent) :
    Except AppError Resource :=
  match s.find? (fun r => r.id == id && r.ven_id == ven_id) with
  | some r => Except.ok ⟨r.id, r.ven_id, content⟩
  | none => Except.error AppError.NotFound

/-- Modelled from the spec: ResourceCrud delete removes the resource and
returns its last state, failing NotFound when absent (section 4.3). -/
def Store.delete_res (s : Store) (id : String) (ven_id : String) :
    Except AppError (Resource × Store) :=
  match s.find? (fun r => r.id == id && r.ven_id == ven_id) with
  | some r => Except.ok (r, s.filter (fun r2 => !(r2.id == id && r2.ven_id == ven_id)))
  | none => Except.error AppError.NotFound

/-- Modelled from the spec: the wire-level constraint on resource names is
validated outside the excerpt; section 8 and the name_constraint_validation
test give the rule: the length must lie in 1..=128, and a violation fails
with a message citing the allowed range 1..=128. -/
def ResourceContent.validate (c : ResourceContent) : Except AppError Unit :=
  if 1 ≤ c.resource_name.length ∧ c.resource_name.length ≤ 128 then
    Except.ok ()
  else
    Except.error (AppError.Validation "resourceName: must have a length within the allowed range, found a length outside of allowed range 1..=128")

namespace resource

/-- The validated query parameters of the resource list endpoint
(api/resource.rs): optional target pair, skip and limit as i64. -/
structure QueryParams where
  target_type : Option String
  target_values : Option (List String)
  skip : Int
  limit : Int
deriving DecidableEq, Repr

/-- The serde default for limit in api/resource.rs. -/
def get_50 : Int := 50

/-- Raw query input before deserialization: each field either absent or a
parsed value; numeric fields arrive as unbounded integers and are checked
against the machine-integer range of the target field. -/
structure RawQuery where
  target_type : Option String
  target_values : Option (List String)
  skip : Option Int
  limit : Option Int
deriving DecidableEq, Repr

/-- Deserialization per the serde attributes on the resource QueryParams:
skip defaults to 0, limit defaults to get_50, and both are i64 fields so
values outside the i64 range fail to parse. -/
def QueryParams.deserialize (raw : RawQuery) : Except AppError QueryParams := do
  let skip ← match raw.skip with
    | none => Except.ok (0 : Int)
    | some v =>
      if -(2 ^ 63) ≤ v ∧ v < 2 ^ 63 then Except.ok v
      else Except.error (AppError.Validation "invalid value for i64 field skip")
  let limit ← match raw.limit with
    | none => Except.ok get_50
    | some v =>
      if -(2 ^ 63) ≤ v ∧ v < 2 ^ 63 then Except.ok v
      else Except.error (AppError.Validation "invalid value for i64 field limit")
  Except.ok ⟨raw.target_type, raw.target_values, skip, limit⟩

/-- The schema-level validator of the resource QueryParams
(api/resource.rs): targetType and targetValues must be both set or both
unset. -/
def validate_target_type_value_pair (query : QueryParams) : Except AppError Unit :=
  if query.target_type.isSome == query.target_values.isSome then
    Except.ok ()
  else
    Except.error (AppError.Validation "targetType and targetValues query parameter must either both be set or not set at the same time.")

/-- The Validate derive on the resource QueryParams: skip carries
range min 0, limit carries range min 1 max 50, and the schema function
validate_target_type_value_pair runs over the whole struct. -/
def QueryParams.validate (q : QueryParams) : Except AppError Unit :=
  if q.skip < 0 then
    Except.error (AppError.Validation "skip: outside of allowed range 0..")
  else if q.limit < 1 ∨ 50 < q.limit then
    Except.error (AppError.Validation "limit: outside of allowed range 1..=50")
  else
    validate_target_type_value_pair q

/-- The ValidatedQuery extractor: deserialize the raw query, then run the
Validate derive; axum runs this before the handler body is entered. -/
def ValidatedQuery (raw : RawQuery) : Except AppError QueryParams := do
  let q ← QueryParams.deserialize raw
  let _ ← QueryParams.validate q
  Except.ok q

/-- Modelled from the spec: the target filter of the backend list
operation matches the target values against the resource name when the
pair is present (section 4.4; the get_all_filtered test filters by
RESOURCE_NAME). -/
def matches_target_filter (q : QueryParams) (r : Resource) : Bool :=
  match q.target_type, q.target_values with
  | some _, some vs => vs.contains r.content.resource_name
  | _, _ => true

/-- Modelled from the spec: ResourceCrud retrieve_all filters to the
resources of the path ven, applies the target filter, then skip, then
limit, in insertion order (sections 4.3 and 4.4). -/
def Store.retrieve_all (s : Store) (ven_id : String) (q : QueryParams) : List Resource :=
  ((((s.filter (fun r => r.ven_id == ven_id)).filter
      (matches_target_filter q)).drop q.skip.toNat).take q.limit.toNat)

/-- The list handler body of api/resource.rs: check write permission on
the path ven, then ask the backend. The query parameters arrive already
validated, because the ValidatedQuery extractor ran first. -/
def get_all (s : Store) (ven_id : String) (query_params : QueryParams) (user : Claims) :
    Except AppError (List Resource) := do
  let _ ← has_write_permission user ven_id
  Except.ok (Store.retrieve_all s ven_id query_params)

/-- The full list request pipeline: axum runs the ValidatedQuery
extractor, and only if it succeeds is the handler body entered. -/
def get_all_request (s : Store) (ven_id : String) (raw : RawQuery) (user : Claims) :
    Except AppError (List Resource) := do
  let query_params ← ValidatedQuery raw
  get_all s ven_id query_params user

/-- The get handler of api/resource.rs: check write permission on the
path ven, then retrieve by id under that ven. -/
def get (s : Store) (ven_id : String) (id : String) (user : Claims) :
    Except AppError Resource := do
  let _ ← has_write_permission user ven_id
  Store.retrieve s id ven_id

/-- The create handler body of api/resource.rs: check write permission on
the path ven, then create. The content arrives already validated by the
ValidatedJson extractor. -/
def add (s : Store) (ven_id : String) (new_resource : ResourceContent) (user : Claims) :
    Except AppError Resource := do
  let _ ← has_write_permission user ven_id
  Except.ok (Store.create s new_resource ven_id)

/-- The full create request pipeline: the ValidatedJson extractor
validates the content before the handler body is entered. -/
def add_request (s : Store) (ven_id : String) (new_resource : ResourceContent) (user : Claims) :
    Except AppError Resource := do
  let _ ← ResourceContent.validate new_resource
  add s ven_id new_resource user

/-- The update handler body of api/resource.rs: check write permission on
the path ven, then update by id under that ven. -/
def edit (s : Store) (ven_id : String) (id : String) (content : ResourceContent) (user : Claims) :
    Except AppError Resource := do
  let _ ← has_write_permission user ven_id
  Store.update s id ven_id content

/-- The full update request pipeline: content validation by ValidatedJson
precedes the handler body. -/
def edit_request (s : Store) (ven_id : String) (id : String) (content : ResourceContent)
    (user : Claims) : Except AppError Resource := do
  let _ ← ResourceContent.validate content
  edit s ven_id id content user

/-- The delete handler of api/resource.rs: check write permission on the
path ven, then delete by id under that ven. -/
def delete (s : Store) (ven_id : String) (id : String) (user : Claims) :
    Except AppError (Resource × Store) := do
  let _ ← has_write_permission user ven_id
  Store.delete_res s id ven_id

end resource

namespace report

/-- A report record; per the spec (sections 3 and 4.2) reports are tied to
the VEN client that produced them through the client name, and carry a
server-assigned id. Only these two fields take part in the behaviour the
excerpt exercises. -/
structure Report where
  id : String
  client_name : String
deriving DecidableEq, Repr

/-- The backing store of the ReportCrud backend. -/
abbrev ReportStore := List Report

/-- Modelled from the spec: the BusinessUser extractor of the jwt module
is not in the excerpt; it admits exactly the identities holding a
business role and rejects every other identity with Forbidden
(sections 3 and 4.2). -/
def BusinessUser (user : Claims) : Except AppError Unit :=
  if user.is_business then
    Except.ok ()
  else
    Except.error (AppError.Forbidden "User does not have the required role")

/-- Modelled from the spec: ReportCrud delete is keyed by the report id
alone, with no VEN-ownership filter at the data layer (section 4.2:
deletion of Report is permitted to any business role regardless of VEN
ownership); NotFound when the id is absent. -/
def ReportStore.delete_report (s : ReportStore) (id : String) : Except AppError Report :=
  match s.find? (fun r => r.id == id) with
  | some r => Except.ok r
  | none => Except.error AppError.NotFound

/-- The report delete handler of api/report.rs: the BusinessUser
extractor gates entry, then the backend delete runs keyed by id only. -/
def delete (s : ReportStore) (id : String) (user : Claims) : Except AppError Report := do
  let _ ← BusinessUser user
  ReportStore.delete_report s id

/-- The validated query parameters of the report list endpoint
(api/report.rs): optional program, event and client-name filters, skip
and limit as i64. -/
structure QueryParams where
  program_id : Option String
  event_id : Option String
  client_name : Option String
  skip : Int
  limit : Int
deriving DecidableEq, Repr

/-- The serde default for limit in api/report.rs. -/
def get_50 : Int := 50

/-- Raw query input of the report list endpoint before deserialization. -/
structure RawQuery where
  program_id : Option String
  event_id : Option String
  client_name : Option String
  skip : Option Int
  limit : Option Int
deriving DecidableEq, Repr

/-- Deserialization per the serde attributes on the report QueryParams:
skip defaults to 0 and limit defaults to get_50; both are i64 fields. -/
def QueryParams.deserialize (raw : RawQuery) : Except AppError QueryParams := do
  let skip ← match raw.skip with
    | none => Except.ok (0 : Int)
    | some v =>
      if -(2 ^ 63) ≤ v ∧ v < 2 ^ 63 then Except.ok v
      else Except.error (AppError.Validation "invalid value for i64 field skip")
  let limit ← match raw.limit with
    | none => Except.ok get_50
    | some v =>
      if -(2 ^ 63) ≤ v ∧ v < 2 ^ 63 then Except.ok v
      else Except.error (AppError.Validation "invalid value for i64 field limit")
  Except.ok ⟨raw.program_id, raw.event_id, raw.client_name, skip, limit⟩

/-- The Validate derive on the report QueryParams: only limit carries a
range attribute, and it only bounds it from above by 50; skip carries no
validation attribute at all. -/
def QueryParams.validate (q : QueryParams) : Except AppError Unit :=
  if 50 < q.limit then
    Except.error (AppError.Validation "limit: outside of allowed range ..=50")
  else
    Except.ok ()

/-- The ValidatedQuery extractor of the report list endpoint. -/
def ValidatedQuery (raw : RawQuery) : Except AppError QueryParams := do
  let q ← QueryParams.deserialize raw
  let _ ← QueryParams.validate q
  Except.ok q

/-- Modelled from the spec: a report is visible to a business identity,
or to a VEN identity whose held ven ids cover the producing client
(sections 4.2 and 4.3: data-layer ownership filtering). -/
def visible_to (user : Claims) (r : Report) : Bool :=
  user.is_business || user.ven_ids.contains r.client_name

/-- Modelled from the spec: ReportCrud retrieve_all applies the ownership
filter and the optional client-name filter, then skip, then limit
(sections 4.3 and 4.4). -/
def ReportStore.retrieve_all (s : ReportStore) (q : QueryParams) (user : Claims) :
    List Report :=
  ((((s.filter (visible_to user)).filter (fun r =>
      match q.client_name with
      | some n => r.client_name == n
      | none => true)).drop q.skip.toNat).take q.limit.toNat)

/-- The report list handler body of api/report.rs: no handler-level
permission check; the backend runs directly with the identity. -/
def get_all (s : ReportStore) (query_params : QueryParams) (user : Claims) :
    Except AppError (List Report) :=
  Except.ok (ReportStore.retrieve_all s query_params user)

/-- The full report list request pipeline: the ValidatedQuery extractor
runs before the handler body. -/
def get_all_request (s : ReportStore) (raw : RawQuery) (user : Claims) :
    Except AppError (List Report) := do
  let query_params ← ValidatedQuery raw
  get_all s query_params user

end report

namespace program

/-- The query parameters of the wire program module
(wire/program.rs): optional target pair, skip as u32, limit as u8. The
unsigned machine integers are embedded as Int with their range enforced
at deserialization. -/
structure QueryParams where
  target_type : Option String
  target_values : Option (List String)
  skip : Int
  limit : Int
deriving DecidableEq, Repr

/-- Raw query input of the program list parameters before
deserialization. -/
structure RawQuery where
  target_type : Option String
  target_values : Option (List String)
  skip : Option Int
  limit : Option Int
deriving DecidableEq, Repr

/-- Deserialization per the serde attributes on the wire program
QueryParams: skip is a u32 with a serde default of 0; limit is a u8 with
NO default, so input that omits limit fails with a missing-field error,
and negative input fails to parse as either unsigned type. -/
def QueryParams.deserialize (raw : RawQuery) : Except AppError QueryParams := do
  let skip ← match raw.skip with
    | none => Except.ok (0 : Int)
    | some v =>
      if 0 ≤ v ∧ v < 2 ^ 32 then Except.ok v
      else Except.error (AppError.Validation "invalid value for u32 field skip")
  let limit ← match raw.limit with
    | none => Except.error (AppError.Validation "missing field limit")
    | some v =>
      if 0 ≤ v ∧ v < 2 ^ 8 then Except.ok v
      else Except.error (AppError.Validation "invalid value for u8 field limit")
  Except.ok ⟨raw.target_type, raw.target_values, skip, limit⟩

/-- The Validate derive on the wire program QueryParams: only limit
carries a range attribute (max 50); in particular no schema-level
validator ties target_type to target_values here. -/
def QueryParams.validate (q : QueryParams) : Except AppError Unit :=
  if 50 < q.limit then
    Except.error (AppError.Validation "limit: outside of allowed range ..=50")
  else
    Except.ok ()

end program

/-- True exactly when a handler outcome is a Forbidden error. -/
def is_forbidden {α : Type} (r : Except AppError α) : Bool :=
  match r with
  | Except.error (AppError.Forbidden _) => true
  | _ => false

/-- Substring test used to state that an error message cites a range. -/
def contains_sub (s sub : String) : Bool :=
  (List.range (s.length + 1)).any (fun i => sub.data.isPrefixOf (s.data.drop i))

/-- The identity of the spec scenario in section 8: it holds only the
VenUser role for ven-1. -/
def ven1_user : Claims := ⟨[AuthRole.VEN "ven-1"]⟩

/-- A store holding a resource owned by ven-1 and a resource owned by
ven-2, as in the fixtures of the handler tests. -/
def demo_store : Store :=
  [⟨"resource-1", "ven-1", ⟨"resource-1-name"⟩⟩,
   ⟨"resource-2", "ven-2", ⟨"resource-2-name"⟩⟩]

lemma except_bind_ok {α β : Type} (a : α) (f : α → Except AppError β) :
    (Except.ok a >>= f) = f a := rfl

lemma except_bind_err {α β : Type} (e : AppError) (f : α → Except AppError β) :
    (Except.error e >>= f) = Except.error e := rfl

lemma has_write_permission_eq (user : Claims) (ven_id : String) :
    has_write_permission user ven_id =
      (if write_allowed_spec user ven_id then Except.ok ()
       else Except.error (AppError.Forbidden "User not authorized to access this resource")) := by
  unfold has_write_permission write_allowed_spec
  cases h1 : user.is_ven_manager <;>
    cases h2 : user.is_ven && user.ven_ids.contains ven_id <;>
      simp [h1, h2]

lemma has_write_permission_of_allowed (user : Claims) (ven_id : String)
    (h : write_allowed_spec user ven_id = true) :
    has_write_permission user ven_id = Except.ok () := by
  rw [has_write_permission_eq, h]
  simp

lemma has_write_permission_of_denied (user : Claims) (ven_id : String)
    (h : write_allowed_spec user ven_id = false) :
    has_write_permission user ven_id =
      Except.error (AppError.Forbidden "User not authorized to access this resource") := by
  rw [has_write_permission_eq, h]
  simp

lemma is_forbidden_retrieve (s : Store) (id ven_id : String) :
    is_forbidden (Store.retrieve s id ven_id) = false := by
  unfold Store.retrieve
  cases h : s.find? (fun r => r.id == id && r.ven_id == ven_id) <;> simp [is_forbidden]

lemma is_forbidden_update (s : Store) (id ven_id : String) (c : ResourceContent) :
    is_forbidden (Store.update s id ven_id c) = false := by
  unfold Store.update
  cases h : s.find? (fun r => r.id == id && r.ven_id == ven_id) <;> simp [is_forbidden]

lemma is_forbidden_delete_res (s : Store) (id ven_id : String) :
    is_forbidden (Store.delete_res s id ven_id) = false := by
  unfold Store.delete_res
  cases h : s.find? (fun r => r.id == id && r.ven_id == ven_id) <;> simp [is_forbidden]

/-- Claim C1: for every identity and every target VEN id, the resource
write-permission check allows the operation exactly when the identity is
a VEN manager, or it holds a VEN role and the target ven id is among the
ven ids it holds; in every other case it denies with a Forbidden error. -/
theorem C1_write_permission_allows_iff (user : Claims) (ven_id : String) :
    (has_write_permission user ven_id = Except.ok () ↔
      write_allowed_spec user ven_id = true) ∧
    (has_write_permission user ven_id ≠ Except.ok () →
      has_write_permission user ven_id =
        Except.error (AppError.Forbidden "User not authorized to access this resource")) := by
  rw [has_write_permission_eq]
  cases h : write_allowed_spec user ven_id <;> simp [h]

/-- Claim C1 witness. -/
theorem C1_write_permission_allows_iff_witness :
    has_write_permission ⟨[AuthRole.VEN "ven-1"]⟩ "ven-2" =
      Except.error (AppError.Forbidden "User not authorized to access this resource") :=
  (C1_write_permission_allows_iff ⟨[AuthRole.VEN "ven-1"]⟩ "ven-2").2 (by decide)

/-- Claim C2: get and list apply exactly the same permission decision as
create, update and delete: each of the five resource handlers returns a
Forbidden outcome exactly when the one shared write-permission rule
denies the identity for the path ven, so read authorization equals write
authorization. -/
theorem C2_read_equals_write_authorization (s : Store) (ven_id id : String)
    (q : resource.QueryParams) (content : ResourceContent) (user : Claims) :
    is_forbidden (resource.get_all s ven_id q user) = !(write_allowed_spec user ven_id) ∧
    is_forbidden (resource.get s ven_id id user) = !(write_allowed_spec user ven_id) ∧
    is_forbidden (resource.add s ven_id content user) = !(write_allowed_spec user ven_id) ∧
    is_forbidden (resource.edit s ven_id id content user) = !(write_allowed_spec user ven_id) ∧
    is_forbidden (resource.delete s ven_id id user) = !(write_allowed_spec user ven_id) := by
  cases h : write_allowed_spec user ven_id
  · have hp := has_write_permission_of_denied user ven_id h
    unfold resource.get_all resource.get resource.add resource.edit resource.delete
    rw [hp]
    simp [except_bind_err, is_forbidden]
  · have hp := has_write_permission_of_allowed user ven_id h
    unfold resource.get_all resource.get resource.add resource.edit resource.delete
    rw [hp]
    simp only [except_bind_ok, Bool.not_true]
    exact ⟨rfl, is_forbidden_retrieve s id ven_id, rfl,
      is_forbidden_update s id ven_id content, is_forbidden_delete_res s id ven_id⟩

/-- Claim C3 counterexample: the claim says a get on a nonexistent id
fails with NotFound, but with the empty store (so no entity with the
requested id exists at all) an identity holding only VenUser ven-1 gets
Forbidden from a get under path ven-2, because the permission check runs
before the existence lookup. -/
theorem C3_counterexample_forbidden_on_absent :
    ([] : Store).all (fun r => !(r.id == "resource-404")) = true ∧
    resource.get ([] : Store) "ven-2" "resource-404" ven1_user =
      Except.error (AppError.Forbidden "User not authorized to access this resource") := by
  decide

/-- Claim C3, amended: the get handler fails Forbidden whenever the
identity is not authorized for the path ven, regardless of existence; when
the identity is authorized, it fails NotFound exactly if no resource with
that id exists under that ven, and returns the resource otherwise. In
particular, for an identity holding only VenUser ven-1, a get under path
ven-2 returns Forbidden and a get on a nonexistent id under ven-1 returns
NotFound. -/
theorem C3_get_error_kinds (s : Store) (user : Claims) (ven_id id : String) :
    (write_allowed_spec user ven_id = false →
      resource.get s ven_id id user =
        Except.error (AppError.Forbidden "User not authorized to access this resource")) ∧
    (write_allowed_spec user ven_id = true →
      s.all (fun r => !(r.id == id && r.ven_id == ven_id)) = true →
      resource.get s ven_id id user = Except.error AppError.NotFound) ∧
    (write_allowed_spec user ven_id = true →
      ∀ r, s.find? (fun r2 => r2.id == id && r2.ven_id == ven_id) = some r →
        resource.get s ven_id id user = Except.ok r) ∧
    resource.get demo_store "ven-2" "resource-2" ven1_user =
      Except.error (AppError.Forbidden "User not authorized to access this resource") ∧
    resource.get demo_store "ven-1" "resource-404" ven1_user =
      Except.error AppError.NotFound := by
  refine ⟨?_, ?_, ?_, by decide, by decide⟩
  · intro h
    unfold resource.get
    rw [has_write_permission_of_denied user ven_id h]
    simp [except_bind_err]
  · intro h habs
    unfold resource.get
    rw [has_write_permission_of_allowed user ven_id h]
    rw [except_bind_ok]
    unfold Store.retrieve
    have hn : s.find? (fun r => r.id == id && r.ven_id == ven_id) = none := by
      rw [List.find?_eq_none]
      intro x hx
      have h2 := List.all_eq_true.mp habs x hx
      simp at h2 ⊢
      tauto
    rw [hn]
  · intro h r hr
    unfold resource.get
    rw [has_write_permission_of_allowed user ven_id h]
    rw [except_bind_ok]
    unfold Store.retrieve
    rw [hr]

/-- Claim C3 witness: the authorized branch at a concrete input. -/
theorem C3_get_error_kinds_witness :
    resource.get demo_store "ven-1" "resource-404" ven1_user =
      Except.error AppError.NotFound :=
  (C3_get_error_kinds demo_store ven1_user "ven-1" "resource-404").2.1 (by decide) (by decide)

/-- Claim C4 counterexample: the claim quantifies over every entity kind
whose list filter defines the targetType/targetValues pair, but the wire
program QueryParams defines the pair and accepts a filter with targetType
set and targetValues absent: deserialization and validation both
succeed. -/
theorem C4_counterexample_program_pair_unchecked :
    program.QueryParams.deserialize ⟨some "GROUP", none, some 0, some 10⟩ =
      Except.ok ⟨some "GROUP", none, 0, 10⟩ ∧
    (⟨some "GROUP", none, 0, 10⟩ : program.QueryParams).target_type.isSome = true ∧
    (⟨some "GROUP", none, 0, 10⟩ : program.QueryParams).target_values.isSome = false ∧
    program.QueryParams.validate ⟨some "GROUP", none, 0, 10⟩ = Except.ok () := by
  decide

/-- Claim C4, amended: for the resource list filter the pair constraint
holds, a filter with exactly one of targetType and targetValues present
fails validation; the wire program filter defines the pair but carries no
such mutual-constraint validation, its validator accepts any pair shape
whenever limit is at most 50. -/
theorem C4_target_pair_validation (q : resource.QueryParams) :
    (q.target_type.isSome ≠ q.target_values.isSome →
      ∃ msg, resource.QueryParams.validate q = Except.error (AppError.Validation msg)) ∧
    (∀ q2 : program.QueryParams, q2.limit ≤ 50 →
      program.QueryParams.validate q2 = Except.ok ()) := by
  constructor
  · intro hne
    unfold resource.QueryParams.validate resource.validate_target_type_value_pair
    split
    · exact ⟨_, rfl⟩
    · split
      · exact ⟨_, rfl⟩
      · split
        · rename_i hcond
          simp at hcond
          exact absurd hcond hne
        · exact ⟨_, rfl⟩
  · intro q2 hle
    unfold program.QueryParams.validate
    rw [if_neg (by omega)]

/-- Claim C4 witness. -/
theorem C4_target_pair_validation_witness :
    (∃ msg, resource.QueryParams.validate ⟨some "GROUP", none, 0, 50⟩ =
      Except.error (AppError.Validation msg)) ∧
    program.QueryParams.validate ⟨some "GROUP", none, 0, 10⟩ = Except.ok () :=
  ⟨(C4_target_pair_validation ⟨some "GROUP", none, 0, 50⟩).1 (by decide),
   (C4_target_pair_validation ⟨some "GROUP", none, 0, 50⟩).2 ⟨some "GROUP", none, 0, 10⟩
     (by decide)⟩

/-- Claim C5 counterexample: the claim quantifies over every list
operation, but the report query parameters accept a negative skip and a
limit of 0, both outside the ranges the claim states. -/
theorem C5_counterexample_report_ranges_unchecked :
    report.QueryParams.validate ⟨none, none, none, -1, 0⟩ = Except.ok () ∧
    (-1 : Int) < 0 ∧ (0 : Int) < 1 := by
  decide

/-- Claim C5, amended: the stated contract holds for the resource list
parameters, skip non-negative with default 0 and limit in 1..=50 with
default 50, out-of-range values failing validation; the report parameters
share the defaults but validate only the upper bound of limit, so a
negative skip and a limit below 1 pass. -/
theorem C5_pagination_ranges :
    (∀ tt tv, resource.QueryParams.deserialize ⟨tt, tv, none, none⟩ =
      Except.ok ⟨tt, tv, 0, 50⟩) ∧
    (∀ q : resource.QueryParams,
      resource.QueryParams.validate q = Except.ok () ↔
        (0 ≤ q.skip ∧ 1 ≤ q.limit ∧ q.limit ≤ 50 ∧
          q.target_type.isSome = q.target_values.isSome)) ∧
    (∀ pid eid cn, report.QueryParams.deserialize ⟨pid, eid, cn, none, none⟩ =
      Except.ok ⟨pid, eid, cn, 0, 50⟩) ∧
    (∀ q : report.QueryParams,
      report.QueryParams.validate q = Except.ok () ↔ q.limit ≤ 50) := by
  refine ⟨fun tt tv => rfl, ?_, fun pid eid cn => rfl, ?_⟩
  · intro q
    unfold resource.QueryParams.validate resource.validate_target_type_value_pair
    split
    · rename_i h1
      constructor
      · intro hc
        exact Except.noConfusion hc
      · intro hp
        exact absurd hp.1 (by omega)
    · rename_i h1
      split
      · rename_i h2
        constructor
        · intro hc
          exact Except.noConfusion hc
        · intro hp
          rcases hp with ⟨hs, hl1, hl2, hpair⟩
          omega
      · rename_i h2
        split
        · rename_i h3
          simp at h3
          constructor
          · intro _
            refine ⟨by omega, by omega, by omega, h3⟩
          · intro _
            rfl
        · rename_i h3
          simp at h3
          constructor
          · intro hc
            exact Except.noConfusion hc
          · intro hp
            exact absurd hp.2.2.2 h3
  · intro q
    unfold report.QueryParams.validate
    split
    · rename_i h1
      constructor
      · intro hc
        exact Except.noConfusion hc
      · intro hp
        omega
    · rename_i h1
      constructor
      · intro _
        omega
      · intro _
        rfl

/-- Claim C6: a list request whose query parameters fail validation
returns the validation error for every store and every identity, for both
validated list pipelines in the excerpt; the outcome is independent of
the store and of the identity, so neither the permission check nor the
backend is reached. -/
theorem C6_validation_precedes_permission_and_backend
    (raw : resource.RawQuery) (rraw : report.RawQuery) (e e2 : AppError)
    (h : resource.ValidatedQuery raw = Except.error e)
    (h2 : report.ValidatedQuery rraw = Except.error e2)
    (s s2 : Store) (rs rs2 : report.ReportStore)
    (user user2 : Claims) (ven_id ven_id2 : String) :
    resource.get_all_request s ven_id raw user = Except.error e ∧
    resource.get_all_request s ven_id raw user =
      resource.get_all_request s2 ven_id2 raw user2 ∧
    report.get_all_request rs rraw user = Except.error e2 ∧
    report.get_all_request rs rraw user = report.get_all_request rs2 rraw user2 := by
  unfold resource.get_all_request report.get_all_request
  rw [h, h2]
  exact ⟨rfl, rfl, rfl, rfl⟩

/-- Claim C6 witness: a negative skip on the resource list and an
over-large limit on the report list. -/
theorem C6_validation_precedes_witness :
    resource.get_all_request demo_store "ven-1" ⟨none, none, some (-1), none⟩ ven1_user =
      Except.error (AppError.Validation "skip: outside of allowed range 0..") ∧
    report.get_all_request [] ⟨none, none, none, none, some 51⟩ ven1_user =
      Except.error (AppError.Validation "limit: outside of allowed range ..=50") := by
  have hmain := C6_validation_precedes_permission_and_backend
    ⟨none, none, some (-1), none⟩ ⟨none, none, none, none, some 51⟩
    (AppError.Validation "skip: outside of allowed range 0..")
    (AppError.Validation "limit: outside of allowed range ..=50")
    (by decide) (by decide) demo_store demo_store [] [] ven1_user ven1_user "ven-1" "ven-1"
  exact ⟨hmain.1, hmain.2.2.1⟩

/-- Claim C7: report deletion is permitted to any identity holding a
business role and performs no VEN-ownership check: for business
identities the handler equals the id-keyed backend delete, any two
business identities observe the same outcome, a single-report store is
deletable whatever ven client owns the report, and non-business
identities are rejected with Forbidden. -/
theorem C7_report_delete_any_business (s : report.ReportStore) (id : String)
    (user user2 : Claims) (hb : user.is_business = true) (hb2 : user2.is_business = true) :
    report.delete s id user = report.ReportStore.delete_report s id ∧
    report.delete s id user = report.delete s id user2 ∧
    (∀ r : report.Report, report.delete [r] r.id user = Except.ok r) ∧
    (∀ u3 : Claims, u3.is_business = false →
      report.delete s id u3 =
        Except.error (AppError.Forbidden "User does not have the required role")) := by
  have hbu : report.BusinessUser user = Except.ok () := by
    unfold report.BusinessUser
    simp [hb]
  have hbu2 : report.BusinessUser user2 = Except.ok () := by
    unfold report.BusinessUser
    simp [hb2]
  refine ⟨?_, ?_, ?_, ?_⟩
  · unfold report.delete
    rw [hbu, except_bind_ok]
  · unfold report.delete
    rw [hbu, hbu2]
  · intro r
    unfold report.delete
    rw [hbu, except_bind_ok]
    unfold report.ReportStore.delete_report
    simp [List.find?]
  · intro u3 hb3
    have hbu3 : report.BusinessUser u3 =
        Except.error (AppError.Forbidden "User does not have the required role") := by
      unfold report.BusinessUser
      simp [hb3]
    unfold report.delete
    rw [hbu3, except_bind_err]

/-- Claim C7 witness: an AnyBusiness identity deletes a report produced
by a ven it does not hold. -/
theorem C7_report_delete_any_business_witness :
    report.delete [(⟨"report-1", "ven-2"⟩ : report.Report)] "report-1"
      ⟨[AuthRole.AnyBusiness]⟩ = Except.ok ⟨"report-1", "ven-2"⟩ :=
  (C7_report_delete_any_business [⟨"report-1", "ven-2"⟩] "report-1"
    ⟨[AuthRole.AnyBusiness]⟩ ⟨[AuthRole.VenManager]⟩ (by decide) (by decide)).2.2.1
    ⟨"report-1", "ven-2"⟩

set_option maxRecDepth 4000 in
/-- Claim C8: resource-name validation accepts exactly the lengths in
1..=128; a name of length 0 and a name of length 150 both fail with a
validation message citing the allowed range 1..=128, and a create request
with an empty name fails validation before the handler body for every
store, ven and identity. -/
theorem C8_resource_name_length (name : String)
    (h1 : 1 ≤ name.length) (h2 : name.length ≤ 128) :
    ResourceContent.validate ⟨name⟩ = Except.ok () ∧
    (∃ msg, ResourceContent.validate ⟨""⟩ = Except.error (AppError.Validation msg) ∧
      contains_sub msg "1..=128" = true) ∧
    (∃ msg, ResourceContent.validate ⟨String.mk (List.replicate 150 'x')⟩ =
      Except.error (AppError.Validation msg) ∧ contains_sub msg "1..=128" = true) ∧
    (∀ (s : Store) (ven_id : String) (user : Claims), ∃ msg,
      resource.add_request s ven_id ⟨""⟩ user =
        Except.error (AppError.Validation msg)) := by
  refine ⟨?_,
    ⟨"resourceName: must have a length within the allowed range, found a length outside of allowed range 1..=128",
      by decide, by decide⟩,
    ⟨"resourceName: must have a length within the allowed range, found a length outside of allowed range 1..=128",
      by decide, by decide⟩, ?_⟩
  · unfold ResourceContent.validate
    exact if_pos ⟨h1, h2⟩
  · intro s ven_id user
    have hval : ResourceContent.validate ⟨""⟩ =
        Except.error (AppError.Validation "resourceName: must have a length within the allowed range, found a length outside of allowed range 1..=128") := by
      decide
    unfold resource.add_request
    rw [hval, except_bind_err]
    exact ⟨_, rfl⟩

/-- Claim C8 witness: a one-character name passes the validation. -/
theorem C8_resource_name_length_witness :
    ResourceContent.validate ⟨"a"⟩ = Except.ok () :=
  (C8_resource_name_length "a" (by decide) (by decide)).1

/-- Claim C9: when the role set of the caller does not authorize the ven
id in the path, every resource handler returns the Forbidden error, a
constant independent of the store; hence the response an unauthorized
caller observes is identical whether or not a resource with the
requested id exists. -/
theorem C9_unauthorized_response_uniform (user : Claims) (ven_id : String)
    (h : write_allowed_spec user ven_id = false)
    (s : Store) (id : String) (content : ResourceContent) (q : resource.QueryParams) :
    resource.get_all s ven_id q user =
      Except.error (AppError.Forbidden "User not authorized to access this resource") ∧
    resource.get s ven_id id user =
      Except.error (AppError.Forbidden "User not authorized to access this resource") ∧
    resource.add s ven_id content user =
      Except.error (AppError.Forbidden "User not authorized to access this resource") ∧
    resource.edit s ven_id id content user =
      Except.error (AppError.Forbidden "User not authorized to access this resource") ∧
    resource.delete s ven_id id user =
      Except.error (AppError.Forbidden "User not authorized to access this resource") ∧
    (∀ s2 : Store, resource.get s ven_id id user = resource.get s2 ven_id id user) := by
  have hp := has_write_permission_of_denied user ven_id h
  unfold resource.get_all resource.get resource.add resource.edit resource.delete
  rw [hp]
  exact ⟨except_bind_err _ _, except_bind_err _ _, except_bind_err _ _,
    except_bind_err _ _, except_bind_err _ _, fun s2 => rfl⟩

/-- Claim C9 witness. -/
theorem C9_unauthorized_response_uniform_witness :
    resource.get demo_store "ven-2" "resource-2" ven1_user =
      Except.error (AppError.Forbidden "User not authorized to access this resource") :=
  (C9_unauthorized_response_uniform ven1_user "ven-2" (by decide) demo_store
    "resource-2" ⟨"new-name"⟩ ⟨none, none, 0, 50⟩).2.1

/-- Claim C10: the wire program list parameters give limit no default, so
input omitting limit fails to deserialize, while the resource and report
parameters default it to 50; and the unsigned skip and limit of the
program parameters reject negative input at deserialization. -/
theorem C10_program_limit_no_default :
    (∀ tt tv, program.QueryParams.deserialize ⟨tt, tv, none, none⟩ =
      Except.error (AppError.Validation "missing field limit")) ∧
    (∀ tt tv v, 0 ≤ v → v < 2 ^ 32 →
      program.QueryParams.deserialize ⟨tt, tv, some v, none⟩ =
        Except.error (AppError.Validation "missing field limit")) ∧
    (∀ tt tv, resource.QueryParams.deserialize ⟨tt, tv, none, none⟩ =
      Except.ok ⟨tt, tv, 0, 50⟩) ∧
    (∀ pid eid cn, report.QueryParams.deserialize ⟨pid, eid, cn, none, none⟩ =
      Except.ok ⟨pid, eid, cn, 0, 50⟩) ∧
    (∀ tt tv v lim, v < 0 →
      program.QueryParams.deserialize ⟨tt, tv, some v, lim⟩ =
        Except.error (AppError.Validation "invalid value for u32 field skip")) ∧
    (∀ tt tv v, v < 0 →
      program.QueryParams.deserialize ⟨tt, tv, none, some v⟩ =
        Except.error (AppError.Validation "invalid value for u8 field limit")) := by
  refine ⟨fun tt tv => rfl, ?_, fun tt tv => rfl, fun pid eid cn => rfl, ?_, ?_⟩
  · intro tt tv v h0 hlt
    simp [program.QueryParams.deserialize, bind, Except.bind, h0, hlt]
    omega
  · intro tt tv v lim hv
    simp [program.QueryParams.deserialize, bind, Except.bind, show ¬(0 : Int) ≤ v by omega]
  · intro tt tv v hv
    simp [program.QueryParams.deserialize, bind, Except.bind, show ¬(0 : Int) ≤ v by omega]

/-- Claim C10 witness. -/
theorem C10_program_limit_no_default_witness :
    program.QueryParams.deserialize ⟨none, none, some 3, none⟩ =
      Except.error (AppError.Validation "missing field limit") ∧
    program.QueryParams.deserialize ⟨none, none, some (-1), some 10⟩ =
      Except.error (AppError.Validation "invalid value for u32 field skip") ∧
    program.QueryParams.deserialize ⟨none, none, none, some (-1)⟩ =
      Except.error (AppError.Validation "invalid value for u8 field limit") :=
  ⟨C10_program_limit_no_default.2.1 none none 3 (by decide) (by decide),
   C10_program_limit_no_default.2.2.2.2.1 none none (-1) (some 10) (by decide),
   C10_program_limit_no_default.2.2.2.2.2 none none (-1) (by decide)⟩

end OpenLEADR
